import Mathlib

/-!
Shallow embedding of the user-space CPU blit prototype (desktop mirroring
pipeline) and verification of its specification claims.

The embedding covers three capture/composite variants of the program:

* `src/DXGI_version/main_dxgi.cpp` — desktop-duplication capture, shader
  composite, CPU cursor reconstruction and blending (`UpdateCursorShape`,
  `DrawCursorOnTexture`, `CaptureAndRender`);
* `src/GDI_version/main_gdi.cpp`  — GDI `StretchBlt` capture with `DrawIconEx`
  cursor rendering (`InitGDI`, `CaptureAndRender`);
* `src/GDI_version/main.cpp`      — desktop-duplication capture with a plain
  `CopySubresourceRegion` composite (`RenderFrame`).

Pixel buffers are modelled as total functions from coordinates to pixels;
machine bytes are natural numbers (all source arithmetic on channels stays
below 2^16 so no wrap-around modelling is needed).  Operations that run
outside the program (the GPU linear sampler, the GDI HALFTONE resampler, the
OS cursor renderer) are passed in as explicit function parameters: the claims
settled here do not depend on their values, only on where and whether the
program applies them.
-/

namespace Blit

/-- A BGRA pixel with 8-bit channels, stored as natural numbers in the byte
order of the program's buffers (`b` at offset 0, alpha at offset 3). -/
structure Pixel where
  b : Nat
  g : Nat
  r : Nat
  a : Nat
deriving DecidableEq, Repr

/-- A pixel surface with its dimensions.  Coordinates are integers so that
negative destination coordinates (a cursor partially above or left of the
canvas) are representable exactly as in the source, where loop indices are
`int`. -/
structure Canvas where
  width : Int
  height : Int
  pix : Int → Int → Pixel

/-- A captured source frame: a pixel lookup on nonnegative coordinates. -/
def Frame : Type := Nat → Nat → Pixel

/-! Session geometry constants, from the constant block shared by all three
translation units. -/

def SOURCE_WIDTH : Nat := 1920
def SOURCE_HEIGHT : Nat := 1080
def RENDER_WIDTH : Nat := 1440
def RENDER_HEIGHT : Nat := 1080
def OUTPUT_WIDTH : Nat := 1920
def OUTPUT_HEIGHT : Nat := 1080
def TARGET_FPS : Nat := 60

/-- Target frame interval in milliseconds, exactly as computed by the source:
`constexpr int FRAME_TIME_MS = 1000 / TARGET_FPS;` (C integer division). -/
def FRAME_TIME_MS : Nat := 1000 / TARGET_FPS

def FIRST_MONITOR_X : Int := 0
def FIRST_MONITOR_Y : Int := 0

/-! ## Cursor Reconstructor (`UpdateCursorShape`, main_dxgi.cpp) -/

/-- DXGI pointer shape type tags (`DXGI_OUTDUPL_POINTER_SHAPE_TYPE_*`). -/
def SHAPE_MONOCHROME : Nat := 1
def SHAPE_COLOR : Nat := 2
def SHAPE_MASKED_COLOR : Nat := 4

/-- The fields of `DXGI_OUTDUPL_POINTER_SHAPE_INFO` used by the decoder. -/
structure ShapeInfo where
  shapeType : Nat
  width : Nat
  height : Nat
  pitch : Nat
  hotspotX : Int
  hotspotY : Int

/-- The cached cursor globals of main_dxgi.cpp: `g_CursorBuffer` (absent when
null), `g_CursorWidth`, `g_CursorHeight`, `g_CursorHotspotX/Y`.  The decoded
buffer is addressed by pixel coordinate; entry `(x, y)` stands for bytes
`(y * width + x) * 4 .. + 3` of the flat C buffer. -/
structure CursorState where
  buffer : Option (Nat → Nat → Pixel)
  width : Nat
  height : Nat
  hotspotX : Int
  hotspotY : Int

/-- Color table of the monochrome decoder: the four `(AND-bit, XOR-bit)`
cases of the branch in `UpdateCursorShape`. -/
def monoPixel (andBit xorBit : Nat) : Pixel :=
  if andBit = 0 ∧ xorBit = 0 then ⟨0, 0, 0, 255⟩
  else if andBit = 0 ∧ xorBit = 1 then ⟨255, 255, 255, 255⟩
  else if andBit = 1 ∧ xorBit = 0 then ⟨0, 0, 0, 0⟩
  else ⟨255, 255, 255, 128⟩

/-- AND-mask bit of pixel `(x, y)`:
`(shapeBuffer[y * Pitch + x / 8] >> (7 - x % 8)) & 1`. -/
def monoAndBit (info : ShapeInfo) (buf : Nat → Nat) (x y : Nat) : Nat :=
  (buf (y * info.pitch + x / 8) >>> (7 - x % 8)) &&& 1

/-- XOR-mask bit of pixel `(x, y)`: read at the same byte index offset by
`g_CursorHeight * Pitch`, where `g_CursorHeight` is the halved height — the
XOR mask is stacked below the AND mask. -/
def monoXorBit (info : ShapeInfo) (buf : Nat → Nat) (x y : Nat) : Nat :=
  (buf (y * info.pitch + x / 8 + info.height / 2 * info.pitch) >>> (7 - x % 8)) &&& 1

/-- Monochrome decode loop body of `UpdateCursorShape`. -/
def decodeMono (info : ShapeInfo) (buf : Nat → Nat) : Nat → Nat → Pixel :=
  fun x y => monoPixel (monoAndBit info buf x y) (monoXorBit info buf x y)

/-- Color decode of `UpdateCursorShape`: row-wise `memcpy` respecting the
source pitch, so pixel `(x, y)` reads bytes `y * Pitch + 4 * x .. + 3`. -/
def decodeColor (info : ShapeInfo) (buf : Nat → Nat) : Nat → Nat → Pixel :=
  fun x y =>
    ⟨buf (y * info.pitch + 4 * x), buf (y * info.pitch + 4 * x + 1),
     buf (y * info.pitch + 4 * x + 2), buf (y * info.pitch + 4 * x + 3)⟩

/-- Masked-color decode of `UpdateCursorShape`: the fourth byte is a binary
mask — nonzero means an XOR-with-screen pixel rendered at alpha 128, zero
means an opaque pixel. -/
def decodeMaskedColor (info : ShapeInfo) (buf : Nat → Nat) : Nat → Nat → Pixel :=
  fun x y =>
    let s := y * info.pitch + 4 * x
    if buf (s + 3) ≠ 0 then ⟨buf s, buf (s + 1), buf (s + 2), 128⟩
    else ⟨buf s, buf (s + 1), buf (s + 2), 255⟩

/-- `UpdateCursorShape`.  The source first frees the previous
`g_CursorBuffer` and overwrites the cached width/height/hotspot from the new
shape info, and only then dispatches on the shape type; an unrecognized type
therefore leaves no buffer at all.  The previous state is an argument only to
make that destruction visible — the result never reads it. -/
def updateCursorShape (_prev : CursorState) (info : ShapeInfo) (buf : Nat → Nat) :
    CursorState :=
  let base : CursorState :=
    { buffer := none, width := info.width, height := info.height,
      hotspotX := info.hotspotX, hotspotY := info.hotspotY }
  if info.shapeType = SHAPE_MONOCHROME then
    { base with height := info.height / 2, buffer := some (decodeMono info buf) }
  else if info.shapeType = SHAPE_COLOR then
    { base with buffer := some (decodeColor info buf) }
  else if info.shapeType = SHAPE_MASKED_COLOR then
    { base with buffer := some (decodeMaskedColor info buf) }
  else base

/-! ## Cursor Compositor (`DrawCursorOnTexture`, main_dxgi.cpp) -/

/-- Per-pixel blend of `DrawCursorOnTexture`: source alpha 0 skips the write,
alpha 255 copies the channels, anything in between blends
`(src * a + dst * (255 - a)) / 255` per channel; both written cases force the
destination alpha to 255. -/
def blendPixel (src dst : Pixel) : Pixel :=
  if 0 < src.a then
    if src.a = 255 then ⟨src.b, src.g, src.r, 255⟩
    else
      ⟨(src.b * src.a + dst.b * (255 - src.a)) / 255,
       (src.g * src.a + dst.g * (255 - src.a)) / 255,
       (src.r * src.a + dst.r * (255 - src.a)) / 255, 255⟩
  else dst

/-- Store one pixel of a canvas. -/
def writePix (c : Canvas) (x y : Int) (p : Pixel) : Canvas :=
  { c with pix := fun i j => if i = x ∧ j = y then p else c.pix i j }

/-- The traversal order of the nested cursor loops: `y` outer, `x` inner. -/
def cursorPixels (w h : Nat) : List (Nat × Nat) :=
  (List.range h).flatMap fun y => (List.range w).map fun x => (x, y)

/-- Body of the nested loops of `DrawCursorOnTexture` for one cursor pixel:
clip against the destination bounds (`continue`), otherwise blend onto the
destination at `(drawX + x, drawY + y)`. -/
def drawCursorStep (cur : Nat → Nat → Pixel) (drawX drawY : Int) (c : Canvas)
    (q : Nat × Nat) : Canvas :=
  let destX : Int := drawX + q.1
  let destY : Int := drawY + q.2
  if 0 ≤ destX ∧ destX < c.width ∧ 0 ≤ destY ∧ destY < c.height then
    writePix c destX destY (blendPixel (cur q.1 q.2) (c.pix destX destY))
  else c

/-- `DrawCursorOnTexture`: no-op when no cursor buffer is cached or its
dimensions are zero; otherwise subtract the hotspot from the requested
position and run the clipped blend loops. -/
def drawCursorOnTexture (st : CursorState) (c : Canvas) (cursorX cursorY : Int) :
    Canvas :=
  match st.buffer with
  | none => c
  | some cur =>
    if st.width = 0 ∨ st.height = 0 then c
    else
      (cursorPixels st.width st.height).foldl
        (drawCursorStep cur (cursorX - st.hotspotX) (cursorY - st.hotspotY)) c

/-! ## DXGI variant tick (`CaptureAndRender`, main_dxgi.cpp) -/

/-- The GPU sampling oracle: the hardware linear sampler configured by
`InitShaders` (`D3D11_FILTER_MIN_MAG_MIP_LINEAR`), producing a filtered pixel
of the staging texture for each destination coordinate of the render region.
The filter itself runs on the GPU and is external to this program; the claims
below never depend on its values. -/
def GpuSampler : Type := Frame → Int → Int → Pixel

/-- Result of `IDXGIOutputDuplication::AcquireNextFrame` as consumed by
`CaptureAndRender`: a timeout, a new frame (opportunistically carrying a
pointer-shape update when `PointerShapeBufferSize > 0` and
`GetFramePointerShape` succeeded), or `DXGI_ERROR_ACCESS_LOST`. -/
inductive AcquireResult where
  | timeout
  | success (frame : Frame) (shape : Option (ShapeInfo × (Nat → Nat)))
  | accessLost

/-- Environment of one `CaptureAndRender` call: the acquire outcome, whether
an `InitDesktopDuplication` attempt made during this tick would succeed, and
the `GetCursorPos` result (`none` when the call fails). -/
structure TickInput where
  acquire : AcquireResult
  recreateOk : Bool
  cursorPos : Option (Int × Int)

/-- The mutable globals of main_dxgi.cpp that the tick reads and writes:
`g_Running`, `g_DeskDupl` (present / null), `g_StagingTexture` contents, the
cursor cache, the back buffer, the last canvas handed to `Present`, plus an
instrumentation counter of `InitDesktopDuplication` attempts. -/
structure DxgiState where
  running : Bool
  deskDupl : Bool
  staging : Frame
  cursor : CursorState
  backBuffer : Canvas
  lastPresented : Option Canvas
  recreateAttempts : Nat

/-- Clear to opaque black plus the fullscreen-quad draw with the pixel shader
of `g_ShaderSource`: with D3D11 half-pixel texel centers, destination column
`i` has `tex.x = (i + 0.5) / 1920`, so the branch `tex.x <= 0.75f` holds
exactly for `i < 1440`; those columns sample the staging texture through the
linear sampler and the rest is the shader's black padding.  Every pixel of
the target is produced anew each call. -/
def dxgiComposite (sample : GpuSampler) (staging : Frame) : Canvas :=
  { width := (OUTPUT_WIDTH : Int), height := (OUTPUT_HEIGHT : Int),
    pix := fun i j =>
      if 0 ≤ i ∧ i < (RENDER_WIDTH : Int) ∧ 0 ≤ j ∧ j < (OUTPUT_HEIGHT : Int) then
        sample staging i j
      else ⟨0, 0, 0, 255⟩ }

/-- Cursor phase of `CaptureAndRender` (main_dxgi.cpp): translate the pointer
position by the monitor origin, draw only when the untranslated-unscaled
coordinate lies inside the source rectangle and a cursor buffer exists, and
scale the x position by `RENDER_WIDTH / SOURCE_WIDTH` with C integer
division (the operands are nonnegative here, so C truncating division agrees
with natural-number division); y is passed through unchanged, the y scale
factor being 1080/1080 = 1. -/
def dxgiCursorPhase (cursor : CursorState) (pos : Option (Int × Int)) (c : Canvas) :
    Canvas :=
  match pos with
  | none => c
  | some (px, py) =>
    let cursorX := px - FIRST_MONITOR_X
    let cursorY := py - FIRST_MONITOR_Y
    if 0 ≤ cursorX ∧ cursorX < (SOURCE_WIDTH : Int) ∧
        0 ≤ cursorY ∧ cursorY < (SOURCE_HEIGHT : Int) then
      if cursor.buffer.isSome then
        drawCursorOnTexture cursor c
          ((cursorX.toNat * RENDER_WIDTH / SOURCE_WIDTH : Nat) : Int) cursorY
      else c
    else c

/-- The unconditional tail of `CaptureAndRender`: rebuild the back buffer
from the staging texture with the shader, blend the cursor onto the back
buffer, then `Present` it. -/
def dxgiRenderPresent (sample : GpuSampler) (st : DxgiState)
    (pos : Option (Int × Int)) : DxgiState :=
  let composed := dxgiComposite sample st.staging
  let withCursor := dxgiCursorPhase st.cursor pos composed
  { st with backBuffer := withCursor, lastPresented := some withCursor }

/-- One `CaptureAndRender` call of main_dxgi.cpp.  `none` models undefined
behavior: the very first statement calls `g_DeskDupl->AcquireNextFrame`, a
null-pointer dereference when the duplication object is absent.  On
`DXGI_ERROR_ACCESS_LOST` the source releases the duplication, calls
`InitDesktopDuplication()` WITHOUT checking its result, and returns
immediately — no render, no `Present`, and `g_Running` untouched. -/
def dxgiTick (sample : GpuSampler) (st : DxgiState) (inp : TickInput) :
    Option DxgiState :=
  if st.deskDupl = false then none
  else
    match inp.acquire with
    | .timeout => some (dxgiRenderPresent sample st inp.cursorPos)
    | .success frame shape =>
      let st1 := { st with staging := frame }
      let st2 :=
        match shape with
        | some (info, buf) => { st1 with cursor := updateCursorShape st1.cursor info buf }
        | none => st1
      some (dxgiRenderPresent sample st2 inp.cursorPos)
    | .accessLost =>
      some { st with deskDupl := inp.recreateOk,
                     recreateAttempts := st.recreateAttempts + 1 }

/-! ## GDI variant tick (`InitGDI` / `CaptureAndRender`, main_gdi.cpp) -/

/-- The DIB section right after `InitGDI`: every pixel of the 1920x1080
buffer pre-filled with `0xFF000000`, i.e. opaque black. -/
def gdiInitCanvas : Canvas :=
  { width := (OUTPUT_WIDTH : Int), height := (OUTPUT_HEIGHT : Int),
    pix := fun _ _ => ⟨0, 0, 0, 255⟩ }

/-- The `StretchBlt` call of main_gdi.cpp: writes the destination rectangle
`(0, 0)`–`(1440, 1080)` with the OS HALFTONE resampling of the screen
(passed in as `sample`, an external GDI operation) and touches nothing
outside it. -/
def gdiStretchBlt (sample : Int → Int → Pixel) (c : Canvas) : Canvas :=
  { c with pix := fun i j =>
      if 0 ≤ i ∧ i < (RENDER_WIDTH : Int) ∧ 0 ≤ j ∧ j < (RENDER_HEIGHT : Int) then
        sample i j
      else c.pix i j }

/-- Truncation toward zero, the semantics of the C `(int)` cast applied to a
floating-point value. -/
def qtrunc (q : ℚ) : Int := if 0 ≤ q then ⌊q⌋ else ⌈q⌉

/-- Session x scale factor of main_gdi.cpp,
`(double)RENDER_WIDTH / SOURCE_WIDTH`.  The quotient 0.75 and all its
products with the integers appearing here are exactly representable as IEEE
doubles, so rational arithmetic models the source computation exactly. -/
def gdiScaleX : ℚ := (RENDER_WIDTH : ℚ) / (SOURCE_WIDTH : ℚ)

/-- Session y scale factor of main_gdi.cpp, `(double)RENDER_HEIGHT / SOURCE_HEIGHT`. -/
def gdiScaleY : ℚ := (RENDER_HEIGHT : ℚ) / (SOURCE_HEIGHT : ℚ)

/-- Cursor placement of main_gdi.cpp `CaptureAndRender`: the draw position
handed to `DrawIconEx` when the cursor is drawn, `none` when the guard on the
untranslated-unscaled hotspot position rejects the draw.  Both the translated
position and the cached hotspot are scaled, each truncated to `int`
separately. -/
def gdiCursorDraw (px py : Int) (hx hy : Nat) : Option (Int × Int) :=
  let cursorX := qtrunc (((px - FIRST_MONITOR_X : Int) : ℚ) * gdiScaleX) -
    qtrunc ((hx : ℚ) * gdiScaleX)
  let cursorY := qtrunc (((py - FIRST_MONITOR_Y : Int) : ℚ) * gdiScaleY) -
    qtrunc ((hy : ℚ) * gdiScaleY)
  let hotspotX := px - FIRST_MONITOR_X
  let hotspotY := py - FIRST_MONITOR_Y
  if 0 ≤ hotspotX ∧ hotspotX < (SOURCE_WIDTH : Int) ∧
      0 ≤ hotspotY ∧ hotspotY < (SOURCE_HEIGHT : Int) then
    some (cursorX, cursorY)
  else none

/-- The `DrawIconEx` call under `SelectClipRgn(g_hdcMemory, g_hClipRgn)`
with `g_hClipRgn = CreateRectRgn(0, 0, RENDER_WIDTH, RENDER_HEIGHT)`: the OS
icon renderer (external, passed as `iconPix`; `none` entries leave the
destination pixel) can only affect pixels inside the clip rectangle. -/
def gdiDrawIconClipped (iconPix : Int → Int → Option Pixel) (c : Canvas) : Canvas :=
  { c with pix := fun i j =>
      if 0 ≤ i ∧ i < (RENDER_WIDTH : Int) ∧ 0 ≤ j ∧ j < (RENDER_HEIGHT : Int) then
        match iconPix i j with
        | some p => p
        | none => c.pix i j
      else c.pix i j }

/-- Environment of one main_gdi.cpp `CaptureAndRender` call: the HALFTONE
resampler output, the cursor info (`none` when `GetCursorInfo` fails or the
cursor is hidden: position and cached hotspot), and the `DrawIconEx`
renderer. -/
structure GdiInput where
  screenSample : Int → Int → Pixel
  cursorInfo : Option (Int × Int × Nat × Nat)
  iconPix : Int → Int → Option Pixel

/-- One `CaptureAndRender` call of main_gdi.cpp, acting on the DIB canvas:
`StretchBlt` into the render rectangle, then the clipped cursor draw when the
guard admits it.  The final `BitBlt` presents the canvas without modifying
it. -/
def gdiTick (inp : GdiInput) (c : Canvas) : Canvas :=
  let c1 := gdiStretchBlt inp.screenSample c
  match inp.cursorInfo with
  | none => c1
  | some (px, py, hx, hy) =>
    match gdiCursorDraw px py hx hy with
    | some _ => gdiDrawIconClipped inp.iconPix c1
    | none => c1

/-- A run of the main_gdi.cpp loop: fold the per-tick environments over the
canvas, starting from the `InitGDI` pre-filled buffer. -/
def gdiRun (inputs : List GdiInput) : Canvas :=
  inputs.foldl (fun c inp => gdiTick inp c) gdiInitCanvas

/-! ## Plain-copy variant tick (`RenderFrame`, main.cpp) -/

/-- Acquire outcome as consumed by main.cpp `RenderFrame`. -/
inductive CopyAcquire where
  | timeout
  | failed
  | success (frame : Frame)

/-- State of main.cpp across ticks: the persistent composite texture and the
canvas last handed to `Present`. -/
structure CopyState where
  composite : Canvas
  lastPresented : Option Canvas

/-- The `CopySubresourceRegion` call of main.cpp `RenderFrame`: copies the
source box `(0,0)`–`(1440, 1080)` of the captured frame verbatim to the same
coordinates of the composite texture — a crop of the top-left of the source,
with no scaling (the source's own comment notes that this call cannot
scale). -/
def copyComposite (frame : Frame) (c : Canvas) : Canvas :=
  { c with pix := fun i j =>
      if 0 ≤ i ∧ i < (RENDER_WIDTH : Int) ∧ 0 ≤ j ∧ j < (RENDER_HEIGHT : Int) then
        frame i.toNat j.toNat
      else c.pix i j }

/-- One `RenderFrame` call of main.cpp: on timeout or failure the composite
texture is untouched and re-presented; on success the captured frame's
top-left box is copied in and the updated composite is presented. -/
def copyTick (st : CopyState) (acq : CopyAcquire) : CopyState :=
  match acq with
  | .timeout => { st with lastPresented := some st.composite }
  | .failed => { st with lastPresented := some st.composite }
  | .success frame =>
    let comp := copyComposite frame st.composite
    { composite := comp, lastPresented := some comp }

/-! ## Presentation pacer (`WinMain` loop tail, main_gdi.cpp / main_dxgi.cpp) -/

/-- The sleep issued at the end of a tick: when the measured elapsed time is
below the target the thread sleeps `(DWORD)(FRAME_TIME_MS - elapsedMs)`
milliseconds (a truncating cast of a nonnegative double), otherwise no sleep
happens.  A single blocking sleep — there is no spin loop. -/
def sleepDuration (elapsedMs : ℚ) : Nat :=
  if elapsedMs < (FRAME_TIME_MS : ℚ) then
    (qtrunc ((FRAME_TIME_MS : ℚ) - elapsedMs)).toNat
  else 0

/-! ## Spec-side comparison definition for resampling -/

/-- Channel interpolation with sixths, used by `bilinearResample`. -/
def lerp6 (c0 c1 r : Nat) : Nat := (c0 * (6 - r) + c1 * r) / 6

/-- Modelled from the spec: the Frame Compositor is required to fill the
render region by "resampling the source frame to the render rectangle's
dimensions using a smooth (bilinear-equivalent) filter".  For the session
geometry (1920 to 1440 horizontally, vertical scale 1) the destination pixel
center `i + 1/2` maps to source coordinate `(i + 1/2) * 4/3 - 1/2 =
(8i + 1)/6`, so a bilinear filter blends the two horizontally adjacent
source pixels with weights in sixths; the vertical direction is the
identity.  This definition exists only to be compared against the program's
composite operations. -/
def bilinearResample (frame : Frame) : Nat → Nat → Pixel :=
  fun i j =>
    let num := 8 * i + 1
    let x0 := num / 6
    let r := num % 6
    let p0 := frame x0 j
    let p1 := frame (x0 + 1) j
    ⟨lerp6 p0.b p1.b r, lerp6 p0.g p1.g r, lerp6 p0.r p1.r r, lerp6 p0.a p1.a r⟩

/-! ## Concrete fixtures used by witnesses and counterexamples -/

/-- A decoded 1x1 opaque red cursor with hotspot (0,0), standing for some
previously decoded `CursorBitmap`. -/
def redCursor : CursorState :=
  { buffer := some fun _ _ => ⟨0, 0, 255, 255⟩, width := 1, height := 1,
    hotspotX := 0, hotspotY := 0 }

/-- The empty cursor cache: program start, before any shape update. -/
def noCursor : CursorState :=
  { buffer := none, width := 0, height := 0, hotspotX := 0, hotspotY := 0 }

/-- A pointer-shape header of an unsupported variant: type tag 3 is none of
MONOCHROME (1), COLOR (2), MASKED_COLOR (4). -/
def unsupportedInfo : ShapeInfo :=
  { shapeType := 3, width := 8, height := 8, pitch := 4, hotspotX := 2, hotspotY := 2 }

/-- An all-zero raw byte buffer. -/
def zeroBuf : Nat → Nat := fun _ => 0

/-- Header of the synthetic 2x2 monochrome cursor of the spec's test: width
2, declared height 4 (two stacked 2-row masks), pitch 1 byte. -/
def mono22Info : ShapeInfo :=
  { shapeType := 1, width := 2, height := 4, pitch := 1, hotspotX := 0, hotspotY := 0 }

/-- Raw bytes of the synthetic monochrome cursor: AND mask rows `0x00, 0xC0`
followed by XOR mask rows `0x40, 0x40`, exercising all four (AND, XOR)
combinations. -/
def mono22Buf : Nat → Nat :=
  fun n => if n = 0 then 0x00 else if n = 1 then 0xC0
    else if n = 2 then 0x40 else if n = 3 then 0x40 else 0

/-- An opaque black 1920x1080 canvas. -/
def blackCanvas : Canvas :=
  { width := 1920, height := 1080, pix := fun _ _ => ⟨0, 0, 0, 255⟩ }

/-- A 1920x1080 canvas whose pad-region pixel (1500, 0) is white and whose
remaining pixels are opaque black. -/
def whitePadCanvas : Canvas :=
  { width := 1920, height := 1080,
    pix := fun i j => if i = 1500 ∧ j = 0 then ⟨255, 255, 255, 255⟩ else ⟨0, 0, 0, 255⟩ }

/-- A uniform mid-gray captured frame. -/
def grayFrame : Frame := fun _ _ => ⟨50, 50, 50, 255⟩

/-- A sampler standing for the GPU linear filter in scenarios with a uniform
staging texture: it returns mid-gray everywhere. -/
def sampleGray : GpuSampler := fun _ _ _ => ⟨50, 50, 50, 255⟩

/-- A source frame that is white on the left 1440 columns and black on the
right 480 columns: cropping and full-width downsampling visibly disagree on
it near the seam. -/
def edgeFrame : Frame :=
  fun x _ => if x < 1440 then ⟨255, 255, 255, 255⟩ else ⟨0, 0, 0, 255⟩

/-- DXGI state before the C7 counterexample tick: healthy duplication, black
staging content, no cursor, and a back buffer whose pad pixel (1500, 0) is
white. -/
def padProbeState : DxgiState :=
  { running := true, deskDupl := true, staging := fun _ _ => ⟨0, 0, 0, 255⟩,
    cursor := noCursor, backBuffer := whitePadCanvas, lastPresented := none,
    recreateAttempts := 0 }

/-- DXGI state before the C8 counterexample ticks: healthy duplication, gray
staging content, the red 1x1 cursor cached, black back buffer. -/
def timeoutProbeState : DxgiState :=
  { running := true, deskDupl := true, staging := grayFrame,
    cursor := redCursor, backBuffer := blackCanvas, lastPresented := none,
    recreateAttempts := 0 }

/-- A timeout tick with no cursor position available. -/
def timeoutNoCursorInput : TickInput :=
  { acquire := .timeout, recreateOk := true, cursorPos := none }

/-- A timeout tick with the pointer at the origin. -/
def timeoutAtOriginInput : TickInput :=
  { acquire := .timeout, recreateOk := true, cursorPos := some (0, 0) }

/-- A timeout tick with the pointer at (500, 0). -/
def timeoutMovedInput : TickInput :=
  { acquire := .timeout, recreateOk := true, cursorPos := some (500, 0) }

/-- A device-lost tick whose recreation attempt would fail. -/
def lostRecreateFailsInput : TickInput :=
  { acquire := .accessLost, recreateOk := false, cursorPos := none }

/-- A GDI tick environment with a uniform screen sample, a visible cursor at
(10, 10) with hotspot (0, 0), and an icon renderer that paints solid red
wherever it is allowed to. -/
def gdiProbeInput : GdiInput :=
  { screenSample := fun _ _ => ⟨50, 50, 50, 255⟩,
    cursorInfo := some (10, 10, 0, 0),
    iconPix := fun _ _ => some ⟨0, 0, 255, 255⟩ }

/-- Plain-copy variant state with a black composite and nothing presented
yet. -/
def copyProbeState : CopyState :=
  { composite := blackCanvas, lastPresented := none }

/-- A tiny 2x2 canvas with distinct channel values per pixel, for exercising
the blend characterization at concrete inputs. -/
def tinyCanvas : Canvas :=
  { width := 2, height := 2,
    pix := fun i j => ⟨(10 + i.natAbs + 2 * j.natAbs), 20, 30, 255⟩ }

/-- A 1x1 half-transparent white cursor (alpha 100) with hotspot (0,0). -/
def softCursor : CursorState :=
  { buffer := some fun _ _ => ⟨255, 255, 255, 100⟩, width := 1, height := 1,
    hotspotX := 0, hotspotY := 0 }

/-! ## Characterization of the cursor blend loop -/

lemma drawCursorStep_width (cur : Nat → Nat → Pixel) (dx dy : Int) (c : Canvas)
    (q : Nat × Nat) : (drawCursorStep cur dx dy c q).width = c.width := by
  unfold drawCursorStep writePix
  dsimp only
  split <;> rfl

lemma drawCursorStep_height (cur : Nat → Nat → Pixel) (dx dy : Int) (c : Canvas)
    (q : Nat × Nat) : (drawCursorStep cur dx dy c q).height = c.height := by
  unfold drawCursorStep writePix
  dsimp only
  split <;> rfl

lemma drawCursorStep_pix_ne (cur : Nat → Nat → Pixel) (dx dy : Int) (c : Canvas)
    (q : Nat × Nat) (i j : Int) (h : ¬(dx + q.1 = i ∧ dy + q.2 = j)) :
    (drawCursorStep cur dx dy c q).pix i j = c.pix i j := by
  unfold drawCursorStep writePix
  dsimp only
  split
  · dsimp only
    rw [if_neg]
    intro hc
    exact h ⟨hc.1.symm, hc.2.symm⟩
  · rfl

lemma foldl_draw_dims (cur : Nat → Nat → Pixel) (dx dy : Int) :
    ∀ (l : List (Nat × Nat)) (c : Canvas),
    (l.foldl (drawCursorStep cur dx dy) c).width = c.width ∧
      (l.foldl (drawCursorStep cur dx dy) c).height = c.height := by
  intro l
  induction l with
  | nil => exact fun c => ⟨rfl, rfl⟩
  | cons q t ih =>
    intro c
    have h := ih (drawCursorStep cur dx dy c q)
    rw [List.foldl_cons]
    rw [drawCursorStep_width, drawCursorStep_height] at h
    exact h

lemma foldl_draw_untouched (cur : Nat → Nat → Pixel) (dx dy : Int) :
    ∀ (l : List (Nat × Nat)) (c : Canvas) (i j : Int),
    (∀ q ∈ l, ¬(dx + q.1 = i ∧ dy + q.2 = j)) →
    (l.foldl (drawCursorStep cur dx dy) c).pix i j = c.pix i j := by
  intro l
  induction l with
  | nil => intro c i j _; rfl
  | cons q t ih =>
    intro c i j h
    rw [List.foldl_cons,
      ih _ i j (fun p hp => h p (List.mem_cons_of_mem _ hp)),
      drawCursorStep_pix_ne cur dx dy c q i j (h q (List.mem_cons_self _ _))]

lemma drawCursorStep_pix_eq (cur : Nat → Nat → Pixel) (dx dy : Int) (c : Canvas)
    (q : Nat × Nat) (hi1 : dx + q.1 < c.width) (hj1 : dy + q.2 < c.height)
    (hi0 : 0 ≤ dx + q.1) (hj0 : 0 ≤ dy + q.2) :
    (drawCursorStep cur dx dy c q).pix (dx + q.1) (dy + q.2) =
      blendPixel (cur q.1 q.2) (c.pix (dx + q.1) (dy + q.2)) := by
  unfold drawCursorStep writePix
  dsimp only
  rw [if_pos ⟨hi0, hi1, hj0, hj1⟩]
  dsimp only
  rw [if_pos ⟨rfl, rfl⟩]

lemma foldl_draw_write_once (cur : Nat → Nat → Pixel) (dx dy : Int) :
    ∀ (l : List (Nat × Nat)) (c : Canvas) (i j : Int) (q : Nat × Nat),
    l.Nodup → q ∈ l →
    dx + q.1 = i → dy + q.2 = j →
    (∀ p ∈ l, (dx + p.1 = i ∧ dy + p.2 = j) → p = q) →
    0 ≤ i → i < c.width → 0 ≤ j → j < c.height →
    (l.foldl (drawCursorStep cur dx dy) c).pix i j =
      blendPixel (cur q.1 q.2) (c.pix i j) := by
  intro l
  induction l with
  | nil => intro c i j q _ hq; cases hq
  | cons p t ih =>
    intro c i j q hnd hq hqx hqy huniq hi0 hi1 hj0 hj1
    rcases List.mem_cons.mp hq with heq | hmem
    · subst heq
      rw [List.foldl_cons]
      have htail : ∀ r ∈ t, ¬(dx + r.1 = i ∧ dy + r.2 = j) := by
        intro r hr hc
        have hrq : r = q := huniq r (List.mem_cons_of_mem _ hr) hc
        exact (List.nodup_cons.mp hnd).1 (hrq ▸ hr)
      rw [foldl_draw_untouched cur dx dy t _ i j htail]
      subst hqx
      subst hqy
      exact drawCursorStep_pix_eq cur dx dy c q hi1 hj1 hi0 hj0
    · have hp : ¬(dx + p.1 = i ∧ dy + p.2 = j) := by
        intro hc
        have hpq : p = q := huniq p (List.mem_cons_self _ _) hc
        exact (List.nodup_cons.mp hnd).1 (hpq ▸ hmem)
      rw [List.foldl_cons]
      have hdw := drawCursorStep_width cur dx dy c p
      have hdh := drawCursorStep_height cur dx dy c p
      rw [ih (drawCursorStep cur dx dy c p) i j q (List.nodup_cons.mp hnd).2 hmem hqx hqy
        (fun r hr hc => huniq r (List.mem_cons_of_mem _ hr) hc)
        hi0 (hdw ▸ hi1) hj0 (hdh ▸ hj1)]
      rw [drawCursorStep_pix_ne cur dx dy c p i j hp]

lemma mem_cursorPixels (w h : Nat) (q : Nat × Nat) :
    q ∈ cursorPixels w h ↔ q.1 < w ∧ q.2 < h := by
  cases q with
  | mk x y =>
    simp only [cursorPixels, List.mem_flatMap, List.mem_map, List.mem_range,
      Prod.mk.injEq]
    constructor
    · rintro ⟨y2, hy2, x2, hx2, hx, hy⟩
      subst hx
      subst hy
      exact ⟨hx2, hy2⟩
    · rintro ⟨hx, hy⟩
      exact ⟨y, hy, x, hx, rfl, rfl⟩

lemma nodup_cursorPixels (w h : Nat) : (cursorPixels w h).Nodup := by
  unfold cursorPixels
  rw [List.nodup_flatMap]
  refine ⟨fun y _ => ?_, ?_⟩
  · refine List.Nodup.map ?_ (List.nodup_range w)
    intro a b hab
    exact (Prod.mk.injEq a y b y).mp hab |>.1
  · refine (List.nodup_range h).imp ?_
    intro a b hab p hp1 hp2
    simp only [List.mem_map, List.mem_range] at hp1 hp2
    obtain ⟨x1, _, rfl⟩ := hp1
    obtain ⟨x2, _, h2⟩ := hp2
    exact hab (((Prod.mk.injEq x2 b x1 a).mp h2).2).symm

/-- Pixel-level characterization of `DrawCursorOnTexture`: with a cached
buffer, every in-bounds canvas pixel is either blended exactly once from the
unique cursor pixel mapping onto it, or left exactly as it was; nothing is
clamped back inside the canvas. -/
lemma drawCursorOnTexture_pix (st : CursorState) (cur : Nat → Nat → Pixel)
    (hbuf : st.buffer = some cur) (c : Canvas) (cx cy i j : Int)
    (hi0 : 0 ≤ i) (hi1 : i < c.width) (hj0 : 0 ≤ j) (hj1 : j < c.height) :
    (drawCursorOnTexture st c cx cy).pix i j =
      if 0 ≤ i - (cx - st.hotspotX) ∧ i - (cx - st.hotspotX) < (st.width : Int) ∧
          0 ≤ j - (cy - st.hotspotY) ∧ j - (cy - st.hotspotY) < (st.height : Int) then
        blendPixel (cur (i - (cx - st.hotspotX)).toNat (j - (cy - st.hotspotY)).toNat)
          (c.pix i j)
      else c.pix i j := by
  unfold drawCursorOnTexture
  rw [hbuf]
  dsimp only
  by_cases hz : st.width = 0 ∨ st.height = 0
  · rw [if_pos hz, if_neg]
    rintro ⟨h1, h2, h3, h4⟩
    rcases hz with hz | hz <;> omega
  · rw [if_neg hz]
    by_cases hin : 0 ≤ i - (cx - st.hotspotX) ∧ i - (cx - st.hotspotX) < (st.width : Int) ∧
        0 ≤ j - (cy - st.hotspotY) ∧ j - (cy - st.hotspotY) < (st.height : Int)
    · rw [if_pos hin]
      obtain ⟨h1, h2, h3, h4⟩ := hin
      refine foldl_draw_write_once cur (cx - st.hotspotX) (cy - st.hotspotY)
        (cursorPixels st.width st.height) c i j
        ((i - (cx - st.hotspotX)).toNat, (j - (cy - st.hotspotY)).toNat)
        (nodup_cursorPixels _ _) ?_ ?_ ?_ ?_ hi0 hi1 hj0 hj1
      · rw [mem_cursorPixels]
        constructor <;> · dsimp only; omega
      · dsimp only; omega
      · dsimp only; omega
      · rintro ⟨a, b⟩ hp ⟨hpa, hpb⟩
        rw [mem_cursorPixels] at hp
        dsimp only at hpa hpb ⊢
        have ha : a = (i - (cx - st.hotspotX)).toNat := by omega
        have hb : b = (j - (cy - st.hotspotY)).toNat := by omega
        rw [ha, hb]
    · rw [if_neg hin]
      apply foldl_draw_untouched
      rintro ⟨a, b⟩ hp ⟨hpa, hpb⟩
      rw [mem_cursorPixels] at hp
      dsimp only at hpa hpb
      apply hin
      refine ⟨by omega, by omega, by omega, by omega⟩

/-- `DrawCursorOnTexture` never changes the dimensions of its target. -/
lemma drawCursorOnTexture_dims (st : CursorState) (c : Canvas) (cx cy : Int) :
    (drawCursorOnTexture st c cx cy).width = c.width ∧
      (drawCursorOnTexture st c cx cy).height = c.height := by
  unfold drawCursorOnTexture
  cases st.buffer with
  | none => exact ⟨rfl, rfl⟩
  | some cur =>
    dsimp only
    split
    · exact ⟨rfl, rfl⟩
    · exact foldl_draw_dims cur _ _ _ c

/-- The cursor phase of the DXGI tick is the identity when no cursor buffer
is cached (the `if (g_CursorBuffer)` guard of `CaptureAndRender`). -/
lemma dxgiCursorPhase_none (cursor : CursorState) (pos : Option (Int × Int))
    (canvas : Canvas) (hb : cursor.buffer = none) :
    dxgiCursorPhase cursor pos canvas = canvas := by
  unfold dxgiCursorPhase
  rcases pos with _ | ⟨px, py⟩
  · rfl
  · simp [hb]

/-! ## Claim C4 — monochrome decode table -/

/-- C4: monochrome pointer-shape decode maps each pixel's (AND-bit, XOR-bit)
pair exactly as (0,0) → opaque black (0,0,0,255), (0,1) → opaque white,
(1,0) → fully transparent, (1,1) → semi-transparent white (255,255,255,128),
over a bitmap of half the declared height, the XOR mask being read at byte
offset `(height / 2) * pitch` below the AND mask. -/
theorem monochrome_decode_table (prev : CursorState) (info : ShapeInfo)
    (buf : Nat → Nat) (hm : info.shapeType = SHAPE_MONOCHROME) :
    (updateCursorShape prev info buf).height = info.height / 2 ∧
    (updateCursorShape prev info buf).width = info.width ∧
    (updateCursorShape prev info buf).buffer = some (decodeMono info buf) ∧
    ∀ x y : Nat,
      (monoAndBit info buf x y = 0 → monoXorBit info buf x y = 0 →
        decodeMono info buf x y = ⟨0, 0, 0, 255⟩) ∧
      (monoAndBit info buf x y = 0 → monoXorBit info buf x y = 1 →
        decodeMono info buf x y = ⟨255, 255, 255, 255⟩) ∧
      (monoAndBit info buf x y = 1 → monoXorBit info buf x y = 0 →
        decodeMono info buf x y = ⟨0, 0, 0, 0⟩) ∧
      (monoAndBit info buf x y = 1 → monoXorBit info buf x y = 1 →
        decodeMono info buf x y = ⟨255, 255, 255, 128⟩) := by
  have hb : updateCursorShape prev info buf =
      { buffer := some (decodeMono info buf), width := info.width,
        height := info.height / 2, hotspotX := info.hotspotX,
        hotspotY := info.hotspotY } := by
    unfold updateCursorShape
    rw [if_pos hm]
  refine ⟨by rw [hb], by rw [hb], by rw [hb], ?_⟩
  intro x y
  refine ⟨fun ha hx => ?_, fun ha hx => ?_, fun ha hx => ?_, fun ha hx => ?_⟩ <;>
    · unfold decodeMono monoPixel
      rw [ha, hx]
      simp

/-- Witness for C4 on the synthetic 2x2 monochrome mask of the spec's test
battery: all four (AND, XOR) combinations decode to the claimed colors, and
the decoded height is half the declared height. -/
theorem monochrome_decode_table_witness :
    (updateCursorShape noCursor mono22Info mono22Buf).height = 2 ∧
    decodeMono mono22Info mono22Buf 0 0 = ⟨0, 0, 0, 255⟩ ∧
    decodeMono mono22Info mono22Buf 1 0 = ⟨255, 255, 255, 255⟩ ∧
    decodeMono mono22Info mono22Buf 0 1 = ⟨0, 0, 0, 0⟩ ∧
    decodeMono mono22Info mono22Buf 1 1 = ⟨255, 255, 255, 128⟩ :=
  ⟨(monochrome_decode_table noCursor mono22Info mono22Buf rfl).1,
   ((monochrome_decode_table noCursor mono22Info mono22Buf rfl).2.2.2 0 0).1
     (by decide) (by decide),
   ((monochrome_decode_table noCursor mono22Info mono22Buf rfl).2.2.2 1 0).2.1
     (by decide) (by decide),
   ((monochrome_decode_table noCursor mono22Info mono22Buf rfl).2.2.2 0 1).2.2.1
     (by decide) (by decide),
   ((monochrome_decode_table noCursor mono22Info mono22Buf rfl).2.2.2 1 1).2.2.2
     (by decide) (by decide)⟩

/-! ## Claim C2 — malformed / unsupported pointer-shape updates -/

/-- C2 counterexample: a pointer-shape update of an unsupported variant (type
tag 3) does NOT retain the previously decoded cursor bitmap: the decoder
frees it and overwrites the cached dimensions from the new header, so the
prior cached state is not left unchanged. -/
theorem unsupported_shape_discards_previous_cursor :
    redCursor.buffer.isSome = true ∧
    (updateCursorShape redCursor unsupportedInfo zeroBuf).buffer = none ∧
    (updateCursorShape redCursor unsupportedInfo zeroBuf).width ≠ redCursor.width := by
  exact ⟨rfl, rfl, by decide⟩

/-- C2 amended: for an update of an unsupported variant the decoder does not
crash, but it frees the previous cursor bitmap and overwrites the cached
metadata with the new header's values, leaving no cursor buffer; every
subsequent blend is then a no-op (no cursor is drawn) until a supported
update decodes successfully. -/
theorem unsupported_shape_decode (prev : CursorState) (info : ShapeInfo)
    (buf : Nat → Nat) (h1 : info.shapeType ≠ SHAPE_MONOCHROME)
    (h2 : info.shapeType ≠ SHAPE_COLOR) (h3 : info.shapeType ≠ SHAPE_MASKED_COLOR) :
    (updateCursorShape prev info buf).buffer = none ∧
    (updateCursorShape prev info buf).width = info.width ∧
    (updateCursorShape prev info buf).height = info.height ∧
    (updateCursorShape prev info buf).hotspotX = info.hotspotX ∧
    (updateCursorShape prev info buf).hotspotY = info.hotspotY ∧
    ∀ (c : Canvas) (cx cy : Int),
      drawCursorOnTexture (updateCursorShape prev info buf) c cx cy = c := by
  have hb : updateCursorShape prev info buf =
      { buffer := none, width := info.width, height := info.height,
        hotspotX := info.hotspotX, hotspotY := info.hotspotY } := by
    unfold updateCursorShape
    rw [if_neg h1, if_neg h2, if_neg h3]
  rw [hb]
  exact ⟨rfl, rfl, rfl, rfl, rfl, fun c cx cy => rfl⟩

/-- Witness for the amended C2 at a concrete unsupported update. -/
theorem unsupported_shape_decode_witness :
    (updateCursorShape redCursor unsupportedInfo zeroBuf).width = 8 ∧
    drawCursorOnTexture (updateCursorShape redCursor unsupportedInfo zeroBuf)
      blackCanvas 5 5 = blackCanvas :=
  ⟨(unsupported_shape_decode redCursor unsupportedInfo zeroBuf
      (by decide) (by decide) (by decide)).2.1,
   (unsupported_shape_decode redCursor unsupportedInfo zeroBuf
      (by decide) (by decide) (by decide)).2.2.2.2.2 blackCanvas 5 5⟩

/-! ## Claim C10 — blend is a no-op before any decoded cursor exists -/

/-- C10: for every tick before any pointer-shape update has been decoded
(cursor buffer absent, or of zero width or height), the cursor blend step
leaves every pixel of the canvas unchanged; the guard of `CaptureAndRender`
likewise skips the draw entirely when no buffer is cached. -/
theorem empty_cursor_blend_noop (st : CursorState) (c : Canvas) (cx cy : Int)
    (h : st.buffer = none ∨ st.width = 0 ∨ st.height = 0) :
    drawCursorOnTexture st c cx cy = c ∧
    (∀ i j : Int, (drawCursorOnTexture st c cx cy).pix i j = c.pix i j) ∧
    (∀ (cursor : CursorState) (pos : Option (Int × Int)) (canvas : Canvas),
      cursor.buffer = none → dxgiCursorPhase cursor pos canvas = canvas) := by
  have heq : drawCursorOnTexture st c cx cy = c := by
    unfold drawCursorOnTexture
    rcases hb : st.buffer with _ | cur
    · rfl
    · dsimp only
      rcases h with h | h | h
      · rw [hb] at h; cases h
      · rw [if_pos (Or.inl h)]
      · rw [if_pos (Or.inr h)]
  refine ⟨heq, fun i j => by rw [heq], ?_⟩
  intro cursor pos canvas hb
  exact dxgiCursorPhase_none cursor pos canvas hb

/-- Witness for C10: the blend at program start (empty cursor cache) changes
nothing. -/
theorem empty_cursor_blend_noop_witness :
    drawCursorOnTexture noCursor blackCanvas 7 9 = blackCanvas :=
  (empty_cursor_blend_noop noCursor blackCanvas 7 9 (Or.inl rfl)).1

/-! ## Claim C9 — pacer target interval -/

/-- C9: the source computes `FRAME_TIME_MS = 1000 / TARGET_FPS` with C
integer division, yielding exactly 16 ms — strictly below the ~16.67 ms
(1000/60) period that its own comment and the spec state; the deficit is
2/3 ms.  The end-of-tick sleep is a single suspension for the truncated
remainder: 10 ms elapsed sleeps 6 ms, 10.5 ms elapsed sleeps 5 ms (the
fractional remainder is truncated by the `DWORD` cast), and an elapsed time
at or beyond the target sleeps 0. -/
theorem frame_interval_truncated :
    FRAME_TIME_MS = 16 ∧
    (FRAME_TIME_MS : ℚ) < 1000 / 60 ∧
    ((1000 : ℚ) / 60 - (FRAME_TIME_MS : ℚ)) = 2 / 3 ∧
    sleepDuration 10 = 6 ∧
    sleepDuration (21 / 2) = 5 ∧
    sleepDuration (33 / 2) = 0 := by
  refine ⟨rfl, by norm_num [FRAME_TIME_MS, TARGET_FPS],
    by norm_num [FRAME_TIME_MS, TARGET_FPS], ?_, ?_, ?_⟩ <;>
    · norm_num [sleepDuration, qtrunc, FRAME_TIME_MS, TARGET_FPS]
      try decide

/-! ## Claim C5 — cursor blend semantics and clipping -/

/-- C5: cursor blending onto the canvas satisfies, for every cursor pixel:
alpha 0 leaves the destination unchanged; alpha 255 copies the source
channels; intermediate alpha blends `(src * a + dst * (255 - a)) / 255` per
channel; both drawn cases force destination alpha 255; and every cursor
pixel whose destination coordinate falls outside the canvas bounds is
skipped — each in-bounds canvas pixel is either blended once from the unique
cursor pixel mapping onto it or left untouched, with no clamping. -/
theorem cursor_blend_semantics :
    (∀ s d : Pixel, s.a = 0 → blendPixel s d = d) ∧
    (∀ s d : Pixel, s.a = 255 → blendPixel s d = ⟨s.b, s.g, s.r, 255⟩) ∧
    (∀ s d : Pixel, 0 < s.a → s.a < 255 →
      blendPixel s d =
        ⟨(s.b * s.a + d.b * (255 - s.a)) / 255,
         (s.g * s.a + d.g * (255 - s.a)) / 255,
         (s.r * s.a + d.r * (255 - s.a)) / 255, 255⟩) ∧
    (∀ (st : CursorState) (cur : Nat → Nat → Pixel), st.buffer = some cur →
      ∀ (c : Canvas) (cx cy i j : Int),
        0 ≤ i → i < c.width → 0 ≤ j → j < c.height →
        (drawCursorOnTexture st c cx cy).pix i j =
          if 0 ≤ i - (cx - st.hotspotX) ∧ i - (cx - st.hotspotX) < (st.width : Int) ∧
              0 ≤ j - (cy - st.hotspotY) ∧ j - (cy - st.hotspotY) < (st.height : Int) then
            blendPixel (cur (i - (cx - st.hotspotX)).toNat (j - (cy - st.hotspotY)).toNat)
              (c.pix i j)
          else c.pix i j) := by
  refine ⟨?_, ?_, ?_, ?_⟩
  · intro s d h
    unfold blendPixel
    rw [if_neg (by omega)]
  · intro s d h
    unfold blendPixel
    rw [if_pos (by omega), if_pos h]
  · intro s d h0 h255
    unfold blendPixel
    rw [if_pos h0, if_neg (by omega)]
  · intro st cur hbuf c cx cy i j hi0 hi1 hj0 hj1
    exact drawCursorOnTexture_pix st cur hbuf c cx cy i j hi0 hi1 hj0 hj1

/-- Witness for C5: the three alpha cases at concrete pixels, one blended
in-bounds canvas pixel, and one canvas pixel not covered by the cursor that
stays untouched. -/
theorem cursor_blend_semantics_witness :
    blendPixel ⟨9, 9, 9, 0⟩ ⟨1, 2, 3, 4⟩ = ⟨1, 2, 3, 4⟩ ∧
    blendPixel ⟨9, 8, 7, 255⟩ ⟨1, 2, 3, 4⟩ = ⟨9, 8, 7, 255⟩ ∧
    blendPixel ⟨255, 255, 255, 100⟩ ⟨10, 20, 30, 255⟩ =
      ⟨(255 * 100 + 10 * (255 - 100)) / 255, (255 * 100 + 20 * (255 - 100)) / 255,
       (255 * 100 + 30 * (255 - 100)) / 255, 255⟩ ∧
    (drawCursorOnTexture softCursor tinyCanvas 1 1).pix 1 1 =
      blendPixel ⟨255, 255, 255, 100⟩ (tinyCanvas.pix 1 1) ∧
    (drawCursorOnTexture softCursor tinyCanvas 1 1).pix 0 0 = tinyCanvas.pix 0 0 :=
  ⟨cursor_blend_semantics.1 ⟨9, 9, 9, 0⟩ ⟨1, 2, 3, 4⟩ rfl,
   cursor_blend_semantics.2.1 ⟨9, 8, 7, 255⟩ ⟨1, 2, 3, 4⟩ rfl,
   cursor_blend_semantics.2.2.1 ⟨255, 255, 255, 100⟩ ⟨10, 20, 30, 255⟩
     (by decide) (by decide),
   cursor_blend_semantics.2.2.2 softCursor _ rfl tinyCanvas 1 1 1 1
     (by decide) (by decide) (by decide) (by decide),
   cursor_blend_semantics.2.2.2 softCursor _ rfl tinyCanvas 1 1 0 0
     (by decide) (by decide) (by decide) (by decide)⟩

/-! ## Claim C6 — cursor position mapping -/

lemma qtrunc_intCast (m : Int) : qtrunc (m : ℚ) = m := by
  unfold qtrunc
  split
  · exact Int.floor_intCast m
  · exact Int.ceil_intCast m

/-- Truncating three quarters of a natural number: the C expression
`(int)(n * 0.75)` equals natural-number division `3 * n / 4` (the double
products involved are exact). -/
lemma qtrunc_mul_three_quarters (n : Nat) :
    qtrunc ((n : ℚ) * (3 / 4)) = ((3 * n / 4 : Nat) : Int) := by
  have h0 : (0 : ℚ) ≤ (n : ℚ) * (3 / 4) := by positivity
  unfold qtrunc
  rw [if_pos h0, Int.floor_eq_iff]
  have hdm := Nat.div_add_mod (3 * n) 4
  have hml : (3 * n) % 4 < 4 := Nat.mod_lt _ (by norm_num)
  have hk1 : 4 * (3 * n / 4) ≤ 3 * n := by omega
  have hk2 : 3 * n < 4 * (3 * n / 4) + 4 := by omega
  have hq : (n : ℚ) * (3 / 4) = (3 * n : Nat) / 4 := by push_cast; ring
  rw [hq]
  constructor
  · rw [le_div_iff₀ (by norm_num : (0 : ℚ) < 4)]
    calc ((3 * n / 4 : Nat) : ℚ) * 4 = ((4 * (3 * n / 4) : Nat) : ℚ) := by push_cast; ring
    _ ≤ ((3 * n : Nat) : ℚ) := by exact_mod_cast hk1
  · rw [div_lt_iff₀ (by norm_num : (0 : ℚ) < 4)]
    calc ((3 * n : Nat) : ℚ) < ((4 * (3 * n / 4) + 4 : Nat) : ℚ) := by exact_mod_cast hk2
    _ = (((3 * n / 4 : Nat) : ℚ) + 1) * 4 := by push_cast; ring

/-- C6: the cursor's destination position is computed by translating the
absolute pointer position by the monitor origin, scaling by the session
scale factors (x by 1440/1920, y by 1080/1080 = 1), and then subtracting the
hotspot (inside `DrawCursorOnTexture` in the DXGI variant; pre-scaled in the
GDI variant); a pointer whose untranslated, unscaled coordinate lies outside
the source rectangle is not drawn at all — in particular a pointer at
(1920, 0) blends no pixels in either variant. -/
theorem cursor_position_mapping :
    (∀ (cursor : CursorState) (c : Canvas) (px py : Int),
      ¬(0 ≤ px - FIRST_MONITOR_X ∧ px - FIRST_MONITOR_X < (SOURCE_WIDTH : Int) ∧
        0 ≤ py - FIRST_MONITOR_Y ∧ py - FIRST_MONITOR_Y < (SOURCE_HEIGHT : Int)) →
      dxgiCursorPhase cursor (some (px, py)) c = c) ∧
    (∀ (cursor : CursorState) (cur : Nat → Nat → Pixel) (c : Canvas) (px py : Int),
      cursor.buffer = some cur →
      (0 ≤ px - FIRST_MONITOR_X ∧ px - FIRST_MONITOR_X < (SOURCE_WIDTH : Int) ∧
        0 ≤ py - FIRST_MONITOR_Y ∧ py - FIRST_MONITOR_Y < (SOURCE_HEIGHT : Int)) →
      dxgiCursorPhase cursor (some (px, py)) c =
        drawCursorOnTexture cursor c
          (((px - FIRST_MONITOR_X).toNat * RENDER_WIDTH / SOURCE_WIDTH : Nat) : Int)
          (py - FIRST_MONITOR_Y)) ∧
    (∀ (cursor : CursorState) (c : Canvas),
      dxgiCursorPhase cursor (some (1920, 0)) c = c) ∧
    (∀ (px py : Int) (hx hy : Nat),
      (gdiCursorDraw px py hx hy).isSome ↔
        (0 ≤ px - FIRST_MONITOR_X ∧ px - FIRST_MONITOR_X < (SOURCE_WIDTH : Int) ∧
         0 ≤ py - FIRST_MONITOR_Y ∧ py - FIRST_MONITOR_Y < (SOURCE_HEIGHT : Int))) ∧
    (∀ (px py hx hy : Nat), px < SOURCE_WIDTH → py < SOURCE_HEIGHT →
      gdiCursorDraw px py hx hy =
        some (((3 * px / 4 : Nat) : Int) - ((3 * hx / 4 : Nat) : Int),
              (py : Int) - (hy : Int))) ∧
    (∀ hx hy : Nat, gdiCursorDraw 1920 0 hx hy = none) := by
  have hsx : gdiScaleX = 3 / 4 := by
    norm_num [gdiScaleX, RENDER_WIDTH, SOURCE_WIDTH]
  have hsy : gdiScaleY = 1 := by
    norm_num [gdiScaleY, RENDER_HEIGHT, SOURCE_HEIGHT]
  refine ⟨?_, ?_, ?_, ?_, ?_, ?_⟩
  · intro cursor c px py hout
    unfold dxgiCursorPhase
    dsimp only
    rw [if_neg hout]
  · intro cursor cur c px py hbuf hin
    unfold dxgiCursorPhase
    dsimp only
    rw [if_pos hin, hbuf]
    rfl
  · intro cursor c
    unfold dxgiCursorPhase
    dsimp only
    rw [if_neg (by decide)]
  · intro px py hx hy
    unfold gdiCursorDraw
    dsimp only
    by_cases hin : 0 ≤ px - FIRST_MONITOR_X ∧ px - FIRST_MONITOR_X < (SOURCE_WIDTH : Int) ∧
        0 ≤ py - FIRST_MONITOR_Y ∧ py - FIRST_MONITOR_Y < (SOURCE_HEIGHT : Int)
    · rw [if_pos hin]
      simpa using hin
    · rw [if_neg hin]
      simpa using hin
  · intro px py hx hy hpx hpy
    unfold gdiCursorDraw
    dsimp only
    rw [if_pos (by simp only [FIRST_MONITOR_X, FIRST_MONITOR_Y]; omega)]
    rw [hsx, hsy]
    have h1 : (((px : Int) - FIRST_MONITOR_X : Int) : ℚ) = (px : ℚ) := by
      simp [FIRST_MONITOR_X]
    have h2 : (((py : Int) - FIRST_MONITOR_Y : Int) : ℚ) = (py : ℚ) := by
      simp [FIRST_MONITOR_Y]
    rw [h1, h2, qtrunc_mul_three_quarters px, qtrunc_mul_three_quarters hx]
    rw [mul_one, mul_one]
    rw [show ((py : ℚ)) = ((py : Int) : ℚ) by push_cast; rfl,
      show ((hy : ℚ)) = ((hy : Int) : ℚ) by push_cast; rfl,
      qtrunc_intCast, qtrunc_intCast]
  · intro hx hy
    unfold gdiCursorDraw
    dsimp only
    rw [if_neg (by decide)]

/-- Witness for C6: the out-of-rectangle clip, the boundary pointer (1920, 0)
drawing nothing in both variants, and the concrete position mapping of a
pointer at (100, 50) with cached hotspot (3, 1): destination (73, 49). -/
theorem cursor_position_mapping_witness :
    dxgiCursorPhase redCursor (some (-5, 0)) blackCanvas = blackCanvas ∧
    dxgiCursorPhase redCursor (some (1920, 0)) blackCanvas = blackCanvas ∧
    dxgiCursorPhase softCursor (some (8, 2)) tinyCanvas =
      drawCursorOnTexture softCursor tinyCanvas 6 2 ∧
    gdiCursorDraw 100 50 3 1 = some (73, 49) ∧
    gdiCursorDraw 1920 0 5 5 = none :=
  ⟨cursor_position_mapping.1 redCursor blackCanvas (-5) 0 (by decide),
   cursor_position_mapping.2.2.1 redCursor blackCanvas,
   cursor_position_mapping.2.1 softCursor _ tinyCanvas 8 2 rfl (by decide),
   cursor_position_mapping.2.2.2.2.1 100 50 3 1 (by decide) (by decide),
   cursor_position_mapping.2.2.2.2.2 5 5⟩

/-! ## Claim C3 — resampling vs cropping -/

/-- C3 counterexample: the plain-copy variant (main.cpp `RenderFrame`) does
not resample the full source down to the render rectangle — on a source
frame that is white through column 1439 and black beyond, the composite
yields white at render pixel (1439, 0) (a crop of the same-coordinate source
pixel), while any bilinear-equivalent downsampling of the full 1920-wide
source yields black there (the destination pixel center maps to source
coordinate 1918.83). -/
theorem copy_composite_crops_not_resamples :
    (copyComposite edgeFrame blackCanvas).pix 1439 0 = ⟨255, 255, 255, 255⟩ ∧
    bilinearResample edgeFrame 1439 0 = ⟨0, 0, 0, 255⟩ ∧
    (copyComposite edgeFrame blackCanvas).pix 1439 0 ≠ bilinearResample edgeFrame 1439 0 := by
  exact ⟨by decide, by decide, by decide⟩

/-- C3 amended: the GDI `StretchBlt` variant requests smooth HALFTONE
scaling and the DXGI shader variant a linear sampler over the full source,
but the plain-copy variant fills the render region as an unscaled crop: each
render-region pixel equals the same-coordinate source pixel (source columns
1440 .. 1919 never influence the output), and nothing outside the render
rectangle is written — so not every capture-backend variant resamples. -/
theorem copy_composite_is_crop (frame : Frame) (c : Canvas) (i j : Int)
    (hi : 0 ≤ i ∧ i < (RENDER_WIDTH : Int)) (hj : 0 ≤ j ∧ j < (RENDER_HEIGHT : Int)) :
    (copyComposite frame c).pix i j = frame i.toNat j.toNat ∧
    (∀ i2 j2 : Int,
      ¬(0 ≤ i2 ∧ i2 < (RENDER_WIDTH : Int) ∧ 0 ≤ j2 ∧ j2 < (RENDER_HEIGHT : Int)) →
      (copyComposite frame c).pix i2 j2 = c.pix i2 j2) := by
  constructor
  · unfold copyComposite
    dsimp only
    rw [if_pos ⟨hi.1, hi.2, hj.1, hj.2⟩]
  · intro i2 j2 h
    unfold copyComposite
    dsimp only
    rw [if_neg h]

/-- Witness for the amended C3: one render-region pixel copied verbatim and
one pad pixel left untouched. -/
theorem copy_composite_is_crop_witness :
    (copyComposite grayFrame blackCanvas).pix 100 100 = grayFrame 100 100 ∧
    (copyComposite grayFrame blackCanvas).pix 1500 0 = blackCanvas.pix 1500 0 :=
  ⟨(copy_composite_is_crop grayFrame blackCanvas 100 100 (by decide) (by decide)).1,
   (copy_composite_is_crop grayFrame blackCanvas 100 100 (by decide) (by decide)).2
     1500 0 (by decide)⟩

/-! ## Claim C7 — pad region -/

/-- C7 counterexample: in the DXGI shader variant the Frame Compositor
writes the pad region again on every tick — a pad pixel holding a non-pad
color before a timeout tick holds the pad color after it, so the pad region
is not "written exactly once at initialization and never written again". -/
theorem pad_rewritten_every_tick :
    ((dxgiTick sampleGray padProbeState timeoutNoCursorInput).map
      fun s => s.backBuffer.pix 1500 0) = some ⟨0, 0, 0, 255⟩ ∧
    padProbeState.backBuffer.pix 1500 0 = ⟨255, 255, 255, 255⟩ ∧
    (⟨255, 255, 255, 255⟩ : Pixel) ≠ ⟨0, 0, 0, 255⟩ := by
  exact ⟨by decide, by decide, by decide⟩

/-- C7 amended: the pad-color invariant holds in every variant, but the
write-once-at-init half only in the GDI variant: (i) a GDI tick never writes
any pixel at or right of the render boundary, (ii) hence after any number of
GDI ticks every pad pixel still equals the opaque-black fill from `InitGDI`,
(iii) the DXGI shader compositor instead re-writes every pad pixel to the
pad color on every tick, and (iv) a full DXGI render with no cursor overlap
(no cached cursor) also leaves every pad pixel equal to the pad color. -/
theorem pad_region_invariant (inputs : List GdiInput) (i j : Int)
    (hpad : (RENDER_WIDTH : Int) ≤ i) :
    (∀ (inp : GdiInput) (c : Canvas), (gdiTick inp c).pix i j = c.pix i j) ∧
    (gdiRun inputs).pix i j = ⟨0, 0, 0, 255⟩ ∧
    (∀ (sample : GpuSampler) (staging : Frame),
      (dxgiComposite sample staging).pix i j = ⟨0, 0, 0, 255⟩) ∧
    (∀ (sample : GpuSampler) (st : DxgiState) (pos : Option (Int × Int)),
      st.cursor.buffer = none →
      (dxgiRenderPresent sample st pos).backBuffer.pix i j = ⟨0, 0, 0, 255⟩) := by
  have hblt : ∀ (s : Int → Int → Pixel) (c : Canvas),
      (gdiStretchBlt s c).pix i j = c.pix i j := by
    intro s c
    unfold gdiStretchBlt
    dsimp only
    rw [if_neg]
    rintro ⟨_, h2, _⟩
    omega
  have hicon : ∀ (ip : Int → Int → Option Pixel) (c : Canvas),
      (gdiDrawIconClipped ip c).pix i j = c.pix i j := by
    intro ip c
    unfold gdiDrawIconClipped
    dsimp only
    rw [if_neg]
    rintro ⟨_, h2, _⟩
    omega
  have hstep : ∀ (inp : GdiInput) (c : Canvas), (gdiTick inp c).pix i j = c.pix i j := by
    intro inp c
    obtain ⟨ss, ci, ip⟩ := inp
    unfold gdiTick
    dsimp only
    rcases ci with _ | ⟨px, py, hx, hy⟩
    · exact hblt _ _
    · dsimp only
      rcases gdiCursorDraw px py hx hy with _ | pos2
      · exact hblt _ _
      · rw [hicon, hblt]
  have hcomp : ∀ (sample : GpuSampler) (staging : Frame),
      (dxgiComposite sample staging).pix i j = ⟨0, 0, 0, 255⟩ := by
    intro sample staging
    unfold dxgiComposite
    dsimp only
    rw [if_neg]
    rintro ⟨_, h2, _⟩
    omega
  refine ⟨hstep, ?_, hcomp, ?_⟩
  · unfold gdiRun
    have hrun : ∀ (l : List GdiInput) (c : Canvas),
        (l.foldl (fun c2 inp => gdiTick inp c2) c).pix i j = c.pix i j := by
      intro l
      induction l with
      | nil => intro c; rfl
      | cons a t ih =>
        intro c
        rw [List.foldl_cons, ih, hstep]
    rw [hrun]
    rfl
  · intro sample st pos hb
    unfold dxgiRenderPresent
    dsimp only
    rw [dxgiCursorPhase_none st.cursor pos _ hb]
    exact hcomp sample st.staging

/-- Witness for the amended C7: pad pixels after three GDI ticks that do
draw a cursor (clipped to the render region), and after a DXGI composite. -/
theorem pad_region_invariant_witness :
    (gdiRun [gdiProbeInput, gdiProbeInput, gdiProbeInput]).pix 1500 0 = ⟨0, 0, 0, 255⟩ ∧
    (dxgiComposite sampleGray grayFrame).pix 1600 5 = ⟨0, 0, 0, 255⟩ :=
  ⟨(pad_region_invariant [gdiProbeInput, gdiProbeInput, gdiProbeInput] 1500 0
      (by decide)).2.1,
   (pad_region_invariant [] 1600 5 (by decide)).2.2.1 sampleGray grayFrame⟩

/-! ## Claim C8 — Timeout semantics -/

/-- C8 counterexample: in the DXGI shader variant a Timeout tick does not
reuse the previous tick's canvas verbatim — the pipeline re-renders from the
(unchanged) staging texture and re-blends the cursor at its current
position, so with a moved pointer the canvas after a Timeout tick differs
from the canvas of the tick before it at the pixel the cursor vacated. -/
theorem timeout_reblends_cursor :
    ((dxgiTick sampleGray timeoutProbeState timeoutAtOriginInput).bind fun s1 =>
      (dxgiTick sampleGray s1 timeoutMovedInput).map fun s2 =>
        (s1.backBuffer.pix 0 0, s2.backBuffer.pix 0 0)) =
      some (⟨0, 0, 255, 255⟩, ⟨50, 50, 50, 255⟩) ∧
    (⟨0, 0, 255, 255⟩ : Pixel) ≠ ⟨50, 50, 50, 255⟩ := by
  exact ⟨by decide, by decide⟩

/-- C8 amended: on Timeout, the plain-copy variant leaves the composite
texture untouched and presents it again verbatim; the DXGI shader variant
keeps the staging texture (the captured frame content is preserved) but
re-runs the composite and re-blends the cursor at the current pointer
position on the rebuilt canvas, and presents that. -/
theorem timeout_semantics (st : CopyState) (sample : GpuSampler)
    (dst : DxgiState) (inp : TickInput) (hd : dst.deskDupl = true)
    (ha : inp.acquire = AcquireResult.timeout) :
    (copyTick st CopyAcquire.timeout).composite = st.composite ∧
    (copyTick st CopyAcquire.timeout).lastPresented = some st.composite ∧
    dxgiTick sample dst inp = some (dxgiRenderPresent sample dst inp.cursorPos) ∧
    (dxgiRenderPresent sample dst inp.cursorPos).staging = dst.staging ∧
    (dxgiRenderPresent sample dst inp.cursorPos).backBuffer =
      dxgiCursorPhase dst.cursor inp.cursorPos (dxgiComposite sample dst.staging) ∧
    (dxgiRenderPresent sample dst inp.cursorPos).lastPresented =
      some (dxgiCursorPhase dst.cursor inp.cursorPos (dxgiComposite sample dst.staging)) := by
  refine ⟨rfl, rfl, ?_, rfl, rfl, rfl⟩
  simp [dxgiTick, hd, ha]

/-- Witness for the amended C8 at concrete states. -/
theorem timeout_semantics_witness :
    (copyTick copyProbeState CopyAcquire.timeout).composite = blackCanvas ∧
    dxgiTick sampleGray padProbeState timeoutNoCursorInput =
      some (dxgiRenderPresent sampleGray padProbeState none) :=
  ⟨(timeout_semantics copyProbeState sampleGray padProbeState timeoutNoCursorInput
      rfl rfl).1,
   (timeout_semantics copyProbeState sampleGray padProbeState timeoutNoCursorInput
      rfl rfl).2.2.1⟩

/-! ## Claim C1 — DeviceLost recovery -/

/-- C1: on DeviceLost the tick makes exactly one synchronous recreation
attempt and leaves the back buffer and the last-presented frame untouched
(nothing is rendered or presented during the recovering tick); but the code
ignores the attempt's result — when recreation fails, the loop is NOT
transitioned to Stopped and no fatal error is reported: `running` is
unchanged, the duplication object is simply absent, and the next tick
dereferences the null duplication pointer (modelled as `none`, undefined
behavior), contradicting the spec's required `Stopped`-with-reported-error
escalation. -/
theorem device_lost_recovery (sample : GpuSampler) (st : DxgiState)
    (inp : TickInput) (hd : st.deskDupl = true)
    (ha : inp.acquire = AcquireResult.accessLost) (hr : inp.recreateOk = false) :
    dxgiTick sample st inp =
      some { st with deskDupl := false, recreateAttempts := st.recreateAttempts + 1 } ∧
    ({ st with deskDupl := false, recreateAttempts := st.recreateAttempts + 1 } : DxgiState).running = st.running ∧
    ({ st with deskDupl := false, recreateAttempts := st.recreateAttempts + 1 } : DxgiState).backBuffer = st.backBuffer ∧
    ({ st with deskDupl := false, recreateAttempts := st.recreateAttempts + 1 } : DxgiState).lastPresented = st.lastPresented ∧
    ∀ inp2 : TickInput,
      dxgiTick sample
        { st with deskDupl := false, recreateAttempts := st.recreateAttempts + 1 } inp2 =
        none := by
  refine ⟨?_, rfl, rfl, rfl, fun inp2 => rfl⟩
  simp [dxgiTick, hd, ha, hr]

/-- Witness for C1: a concrete device-lost tick with failing recreation,
followed by the undefined next tick. -/
theorem device_lost_recovery_witness :
    dxgiTick sampleGray padProbeState lostRecreateFailsInput =
      some { padProbeState with deskDupl := false, recreateAttempts := 1 } ∧
    dxgiTick sampleGray { padProbeState with deskDupl := false, recreateAttempts := 1 }
      timeoutNoCursorInput = none :=
  ⟨(device_lost_recovery sampleGray padProbeState lostRecreateFailsInput rfl rfl rfl).1,
   (device_lost_recovery sampleGray padProbeState lostRecreateFailsInput rfl rfl rfl).2.2.2.2
     timeoutNoCursorInput⟩

end Blit

